import Mathlib

/-!
Verification of userdefaults3 (src/userdefaults3.py), a dictionary-style
interface to a settings store with two backends: a naive plist-file backend
(FileUserDefaults) and an Obj-C bridge backend (ObjCUserDefaults).

The embedding models:
  - plist values (the typed property-list data model used by plistlib);
  - Python dict semantics for the in-memory document of the file backend;
  - the file system as a partial map from paths to file contents, so that
    construction-time loading, sync-time writing and frame properties
    (no file creation, no write without writeback) are expressible;
  - the NSUserDefaults domain of the bridge backend as a partial map from
    Obj-C objects to Obj-C objects, with the method-call argument order
    exactly as written in the source;
  - the Python exceptions the module can raise.
-/

set_option autoImplicit false

namespace UserDefaults3

/-- Values of the typed property-list data model (plistlib): booleans,
integers, reals (carried as an opaque bit pattern, since storage never
inspects them), strings, byte sequences, dates (as an opaque timestamp),
arrays, and nested string-keyed dictionaries. -/
inductive Plist where
  | bool (b : Bool)
  | int (n : Int)
  | real (bits : Nat)
  | str (s : String)
  | data (bytes : List Nat)
  | date (ts : Int)
  | array (xs : List Plist)
  | dict (kvs : List (String × Plist))

mutual

/-- Structural equality of plist values (the equality plistlib round-trips
and NSObject isEqual provide on bridged property-list values). -/
def Plist.beq : Plist → Plist → Bool
  | .bool a, .bool b => a == b
  | .int a, .int b => a == b
  | .real a, .real b => a == b
  | .str a, .str b => a == b
  | .data a, .data b => a == b
  | .date a, .date b => a == b
  | .array xs, .array ys => Plist.beqList xs ys
  | .dict xs, .dict ys => Plist.beqDict xs ys
  | _, _ => false

/-- Elementwise equality of plist arrays. -/
def Plist.beqList : List Plist → List Plist → Bool
  | [], [] => true
  | x :: xs, y :: ys => Plist.beq x y && Plist.beqList xs ys
  | _, _ => false

/-- Elementwise equality of plist dictionaries (as ordered pair lists). -/
def Plist.beqDict : List (String × Plist) → List (String × Plist) → Bool
  | [], [] => true
  | (k₁, v₁) :: xs, (k₂, v₂) :: ys => k₁ == k₂ && Plist.beq v₁ v₂ && Plist.beqDict xs ys
  | _, _ => false

end

/-- The in-memory settings document: a Python dict with string keys, embedded
as an association list in insertion order. Python dicts hold each key at most
once; documents reachable from plistlib.load and dict assignment keep this. -/
abbrev Dict := List (String × Plist)

/-- Python dict lookup d[k]: first (and, on reachable states, only) binding. -/
def Dict.get? : Dict → String → Option Plist
  | [], _ => none
  | (k₁, v₁) :: rest, k => if k₁ = k then some v₁ else Dict.get? rest k

/-- Python dict assignment d[k] = v: replace in place when the key is
present, otherwise append at the end. -/
def Dict.set : Dict → String → Plist → Dict
  | [], k, v => [(k, v)]
  | (k₁, v₁) :: rest, k, v =>
      if k₁ = k then (k, v) :: rest else (k₁, v₁) :: Dict.set rest k v

/-- Python del d[k] removes the binding of k; on duplicate-free states
removing every matching pair coincides with removing the single one.
Returns none when the key is absent (Python raises KeyError there). -/
def Dict.del (d : Dict) (k : String) : Option Dict :=
  match Dict.get? d k with
  | some _ => some (d.filter (fun p => ¬ (p.1 = k)))
  | none => none

/-- The Python exceptions that the module raises or handles. -/
inductive PyErr where
  | keyError (key : String)
  | typeError (msg : String)
  | notImplementedError (msg : String)
  | userDefaultsError (msg : String)
  | fileNotFoundError (path : String)
  | invalidFileException
  deriving DecidableEq, Repr

/-- The message text of an exception, as Python would render it when
interpolated into an f-string. The exact wording of the two wrapped causes
follows CPython (open on a missing path; plistlib.InvalidFileException). -/
def PyErr.message : PyErr → String
  | .keyError k => k
  | .typeError m => m
  | .notImplementedError m => m
  | .userDefaultsError m => m
  | .fileNotFoundError p => "[Errno 2] No such file or directory: " ++ p
  | .invalidFileException => "Invalid file"

/-- What a path can hold on disk, as far as plistlib.load distinguishes:
a file that decodes to a document, or a file whose contents fail to decode
(plistlib raises InvalidFileException). An absent path is modelled by the
file-system map returning none. -/
inductive FileContent where
  | plist (d : Dict)
  | undecodable

/-- The file system: a partial map from paths (as strings) to contents,
embedded as an association list. -/
abbrev FS := List (String × FileContent)

/-- Lookup of a path in the file system. -/
def FS.stat : FS → String → Option FileContent
  | [], _ => none
  | (p₁, c₁) :: rest, p => if p₁ = p then some c₁ else FS.stat rest p

/-- Opening a path for writing (mode wb) truncates an existing file or
creates the path, then the dump replaces its contents. -/
def FS.write : FS → String → FileContent → FS
  | [], p, c => [(p, c)]
  | (p₁, c₁) :: rest, p, c =>
      if p₁ = p then (p, c) :: rest else (p₁, c₁) :: FS.write rest p c

/-- Opening a path for reading (mode rb) followed by plistlib.load: a missing
path raises FileNotFoundError, an undecodable file raises
InvalidFileException, otherwise the decoded document is returned. -/
def FS.load (fs : FS) (p : String) : Except PyErr Dict :=
  match FS.stat fs p with
  | none => .error (.fileNotFoundError p)
  | some .undecodable => .error .invalidFileException
  | some (.plist d) => .ok d

/-- USERHOME, the expansion of pathlib.Path of the tilde; kept as the tilde
itself since the claims speak of paths under it symbolically. -/
def USERHOME : String := "~"

/-- Modelled from the spec: the Identity Resolver (spec section 4.1), called
get_bundle_id at src/userdefaults3.py line 133 but not defined under src
(only its caller is). Per the spec it tries the manifest identifier field,
then the environment-variable namespace capture, and returns none when both
fail; an identifier that is empty or absent is exactly the failure case in
which file-backed operation is impossible (spec section 3), so each source
yields its identifier only when non-empty. -/
def get_bundle_id (manifest_id env_id : Option String) : Option String :=
  match manifest_id with
  | some i => if i = "" then (match env_id with
      | some j => if j = "" then none else some j
      | none => none) else some i
  | none => match env_id with
      | some j => if j = "" then none else some j
      | none => none

/-- Embeds get_userdefaults_path (src/userdefaults3.py lines 125 to 143),
with the result of the get_bundle_id call passed in as an argument. Returns
none when the bundle id is none; otherwise the plist lives under
SyncedPreferences for the bundle id AsheKube.app.a-Shell and under
Preferences for every other bundle id. -/
def get_userdefaults_path (bundle_id : Option String) : Option String :=
  match bundle_id with
  | none => none
  | some bid =>
      let plist_folder :=
        if bid = "AsheKube.app.a-Shell" then "SyncedPreferences" else "Preferences"
      some (USERHOME ++ "/Library/" ++ plist_folder ++ "/" ++ bid ++ ".plist")

/-- The state of a constructed FileUserDefaults instance: the writeback flag,
the resolved path and the deserialised in-memory document. -/
structure FileUserDefaults where
  writeback : Bool
  path : String
  data : Dict

/-- Embeds FileUserDefaults constructor behaviour (src/userdefaults3.py lines
199 to 216). The file system is threaded through so that frame properties are
expressible; the constructor only ever opens the path for reading, so the
returned file system is the input one on every branch. A non-empty suitename
raises NotImplementedError before anything else; a none path raises
NotImplementedError before any I/O; a missing or undecodable file raises
UserDefaultsError wrapping the message of the underlying exception. -/
def FileUserDefaults.init (writeback : Bool) (suitename : String)
    (bundle_id : Option String) (fs : FS) :
    Except PyErr FileUserDefaults × FS :=
  if suitename = "" then
    match get_userdefaults_path bundle_id with
    | none =>
        (.error (.notImplementedError "platform not supported: bundle ID is invalid"), fs)
    | some path =>
        match FS.load fs path with
        | .ok d => (.ok { writeback := writeback, path := path, data := d }, fs)
        | .error e =>
            (.error (.userDefaultsError ("could not parse UserDefaults plist: " ++ e.message)), fs)
  else
    (.error (.notImplementedError "suitenams not supported by FileUserDefaults"), fs)

/-- Embeds BaseUserDefaults getitem (line 162): Python dict lookup, raising
KeyError when the key is absent. -/
def FileUserDefaults.getitem (ud : FileUserDefaults) (k : String) :
    Except PyErr Plist :=
  match Dict.get? ud.data k with
  | some v => .ok v
  | none => .error (.keyError k)

/-- Embeds BaseUserDefaults setitem (line 165): Python dict assignment on the
in-memory document; no I/O occurs. -/
def FileUserDefaults.setitem (ud : FileUserDefaults) (k : String) (v : Plist) :
    FileUserDefaults :=
  { ud with data := Dict.set ud.data k v }

/-- Embeds BaseUserDefaults delitem (line 168): Python del on the in-memory
document, raising KeyError when the key is absent. -/
def FileUserDefaults.delitem (ud : FileUserDefaults) (k : String) :
    Except PyErr FileUserDefaults :=
  match Dict.del ud.data k with
  | some d => .ok { ud with data := d }
  | none => .error (.keyError k)

/-- Embeds the MutableMapping containment mixin, which both backends inherit:
it evaluates getitem, catches KeyError as false, and treats any produced
value (nil included) as true. -/
def mappingContains {α : Type} (r : Except PyErr α) : Except PyErr Bool :=
  match r with
  | .ok _ => .ok true
  | .error (.keyError _) => .ok false
  | .error e => .error e

/-- Containment on the file backend: the inherited mixin over getitem. -/
def FileUserDefaults.contains (ud : FileUserDefaults) (k : String) :
    Except PyErr Bool :=
  mappingContains (ud.getitem k)

/-- Embeds FileUserDefaults.sync (src/userdefaults3.py lines 218 to 227) as
written: the dump to the path happens only when the writeback flag was set at
construction, the file system is untouched otherwise. -/
def FileUserDefaults.sync (ud : FileUserDefaults) (fs : FS) : FS :=
  if ud.writeback then FS.write fs ud.path (.plist ud.data) else fs

/-- Embeds FileUserDefaults scope exit (lines 232 to 233): the exit hook
receives the exception information (none on normal exit) and ignores it,
calling sync unconditionally. -/
def FileUserDefaults.exitScope (ud : FileUserDefaults) (_exc : Option PyErr)
    (fs : FS) : FS :=
  ud.sync fs

/-- A mutation performed through the mapping interface during a with block. -/
inductive Op where
  | set (k : String) (v : Plist)
  | del (k : String)

/-- Applies one mutation to the in-memory document; a del of an absent key
raises in Python and leaves the document unchanged, so it is embedded as the
identity on the state. -/
def FileUserDefaults.applyOp (ud : FileUserDefaults) : Op → FileUserDefaults
  | .set k v => ud.setitem k v
  | .del k =>
      match ud.delitem k with
      | .ok ud₁ => ud₁
      | .error _ => ud

/-- Applies a sequence of in-scope mutations. -/
def FileUserDefaults.applyOps (ud : FileUserDefaults) (ops : List Op) :
    FileUserDefaults :=
  ops.foldl FileUserDefaults.applyOp ud

/-- An object held by the Obj-C runtime, as far as the bridge backend touches
it: a bridged string (Python strings crossing the bridge, and NSString keys),
or the conversion of some other Python value. -/
inductive ObjCObject where
  | str (s : String)
  | wrapped (v : Plist)

/-- Runtime equality of Obj-C objects (isEqual), used by NSUserDefaults for
key matching: bridged strings compare as strings, converted values compare
structurally. -/
def ObjCObject.beq : ObjCObject → ObjCObject → Bool
  | .str a, .str b => a == b
  | .wrapped a, .wrapped b => Plist.beq a b
  | _, _ => false

/-- Embeds the at conversion (rubicon-objc at, or objc4 ns mapped to at):
a Python string becomes the bridged string object, any other Python value
becomes its converted Obj-C counterpart. -/
def at_conv : Plist → ObjCObject
  | .str s => .str s
  | v => .wrapped v

/-- The state of one NSUserDefaults domain: its key-value pairs, with Obj-C
objects in both positions so that the argument order the source uses can be
embedded exactly as written. -/
structure NSUserDefaultsState where
  store : List (ObjCObject × ObjCObject)

/-- First binding of a key in a pair list, by runtime equality. -/
def alLookup (key : ObjCObject) : List (ObjCObject × ObjCObject) → Option ObjCObject
  | [] => none
  | (k₁, v₁) :: rest => if ObjCObject.beq k₁ key then some v₁ else alLookup key rest

/-- Replaces the first binding of a key in a pair list, or appends one. -/
def alInsert (obj key : ObjCObject) : List (ObjCObject × ObjCObject) → List (ObjCObject × ObjCObject)
  | [] => [(key, obj)]
  | (k₁, v₁) :: rest =>
      if ObjCObject.beq k₁ key then (key, obj) :: rest else (k₁, v₁) :: alInsert obj key rest

/-- NSUserDefaults objectForKey, looking the key up by runtime equality and
answering nil (none) when it is absent. -/
def objectForKey (st : NSUserDefaultsState) (key : ObjCObject) :
    Option ObjCObject :=
  alLookup key st.store

/-- NSUserDefaults setObject forKey: the first argument is the object to
store, the second the key it is stored under; an existing binding of the key
is replaced. -/
def setObject_forKey (st : NSUserDefaultsState) (obj key : ObjCObject) :
    NSUserDefaultsState :=
  ⟨alInsert obj key st.store⟩

/-- NSUserDefaults removeObjectForKey: drops the binding of the key, a no-op
when the key is absent. -/
def removeObjectForKey (st : NSUserDefaultsState) (key : ObjCObject) :
    NSUserDefaultsState :=
  ⟨st.store.filter (fun p => ¬ (ObjCObject.beq p.1 key = true))⟩

/-- Embeds ObjCUserDefaults getitem (src/userdefaults3.py lines 268 to 269):
objectForKey on the bridged key string. The method is total: an absent key
gives the nil result, no exception is raised. -/
def ObjCUserDefaults.getitem (st : NSUserDefaultsState) (k : String) :
    Option ObjCObject :=
  objectForKey st (.str k)

/-- Embeds ObjCUserDefaults setitem (lines 271 to 272) with the argument
order exactly as in the source: setObject_forKey receives the key string as
the object to store and the converted value at_conv v as the key to store it
under. -/
def ObjCUserDefaults.setitem (st : NSUserDefaultsState) (k : String)
    (v : Plist) : NSUserDefaultsState :=
  setObject_forKey st (.str k) (at_conv v)

/-- Embeds ObjCUserDefaults delitem (lines 274 to 275): removeObjectForKey on
the bridged key string. -/
def ObjCUserDefaults.delitem (st : NSUserDefaultsState) (k : String) :
    NSUserDefaultsState :=
  removeObjectForKey st (.str k)

/-- Containment on the bridge backend: the inherited MutableMapping mixin
over a getitem that never raises, so the KeyError branch is unreachable. -/
def ObjCUserDefaults.contains (st : NSUserDefaultsState) (k : String) :
    Except PyErr Bool :=
  mappingContains (Except.ok (α := Option ObjCObject) (ObjCUserDefaults.getitem st k))

/-- Embeds assignment to the data property of ObjCUserDefaults
(src/userdefaults3.py lines 281 to 285). The setter there is declared as def
data taking self alone, with no parameter for the assigned value; the Python
property protocol calls the setter with the instance and the value, so the
call fails its arity check with TypeError before the body, which would raise
UserDefaultsError, can run. No state is produced on any input. -/
def ObjCUserDefaults.setData (_st : NSUserDefaultsState) (_v : Plist) :
    Except PyErr NSUserDefaultsState :=
  .error (.typeError "data() takes 1 positional argument but 2 were given")

/-! Helper lemmas about the dictionary, file-system and pair-list maps. -/

theorem Dict.get?_set_self (d : Dict) (k : String) (v : Plist) :
    Dict.get? (Dict.set d k v) k = some v := by
  induction d with
  | nil => simp [Dict.set, Dict.get?]
  | cons p rest ih =>
      obtain ⟨k₁, v₁⟩ := p
      by_cases h : k₁ = k
      · simp [Dict.set, h, Dict.get?]
      · simp [Dict.set, h, Dict.get?, ih]

theorem Dict.get?_filter_self (d : Dict) (k : String) :
    Dict.get? (d.filter (fun p => ¬ (p.1 = k))) k = none := by
  induction d with
  | nil => simp [Dict.get?]
  | cons p rest ih =>
      obtain ⟨k₁, v₁⟩ := p
      by_cases h : k₁ = k
      · simpa [List.filter_cons, h] using ih
      · simpa [List.filter_cons, h, Dict.get?] using ih

theorem FS.stat_write_self (fs : FS) (p : String) (c : FileContent) :
    FS.stat (FS.write fs p c) p = some c := by
  induction fs with
  | nil => simp [FS.write, FS.stat]
  | cons q rest ih =>
      obtain ⟨p₁, c₁⟩ := q
      by_cases h : p₁ = p
      · simp [FS.write, h, FS.stat]
      · simp [FS.write, h, FS.stat, ih]

theorem FileUserDefaults.applyOp_writeback (ud : FileUserDefaults) (op : Op) :
    (ud.applyOp op).writeback = ud.writeback := by
  cases op with
  | set k v => rfl
  | del k =>
      simp only [FileUserDefaults.applyOp, FileUserDefaults.delitem]
      cases h : Dict.del ud.data k <;> simp [h]

theorem FileUserDefaults.applyOp_path (ud : FileUserDefaults) (op : Op) :
    (ud.applyOp op).path = ud.path := by
  cases op with
  | set k v => rfl
  | del k =>
      simp only [FileUserDefaults.applyOp, FileUserDefaults.delitem]
      cases h : Dict.del ud.data k <;> simp [h]

theorem FileUserDefaults.applyOps_writeback (ud : FileUserDefaults) (ops : List Op) :
    (ud.applyOps ops).writeback = ud.writeback := by
  induction ops generalizing ud with
  | nil => rfl
  | cons op ops ih =>
      calc (ud.applyOps (op :: ops)).writeback
          = ((ud.applyOp op).applyOps ops).writeback := rfl
        _ = (ud.applyOp op).writeback := ih _
        _ = ud.writeback := ud.applyOp_writeback op

theorem FileUserDefaults.applyOps_path (ud : FileUserDefaults) (ops : List Op) :
    (ud.applyOps ops).path = ud.path := by
  induction ops generalizing ud with
  | nil => rfl
  | cons op ops ih =>
      calc (ud.applyOps (op :: ops)).path
          = ((ud.applyOp op).applyOps ops).path := rfl
        _ = (ud.applyOp op).path := ih _
        _ = ud.path := ud.applyOp_path op

theorem alLookup_filter_self (l : List (ObjCObject × ObjCObject)) (key : ObjCObject) :
    alLookup key (l.filter (fun p => ¬ (ObjCObject.beq p.1 key = true))) = none := by
  induction l with
  | nil => rfl
  | cons p rest ih =>
      obtain ⟨k₁, v₁⟩ := p
      by_cases h : ObjCObject.beq k₁ key = true
      · simpa [List.filter_cons, h] using ih
      · simpa [List.filter_cons, h, alLookup] using ih

theorem alLookup_absent (l : List (ObjCObject × ObjCObject)) (key : ObjCObject)
    (h : ∀ p ∈ l, ObjCObject.beq p.1 key = false) :
    alLookup key l = none := by
  induction l with
  | nil => rfl
  | cons p rest ih =>
      obtain ⟨k₁, v₁⟩ := p
      have h₁ : ObjCObject.beq k₁ key = false := h (k₁, v₁) (List.mem_cons_self _ _)
      simp only [alLookup, h₁]
      exact ih (fun q hq => h q (List.mem_cons_of_mem _ hq))

/-! Claim theorems. -/

/-- C1: the claim states that an explicit sync call unconditionally encodes
the in-memory document and overwrites the file at the resolved path,
regardless of the writeback flag given at construction. In the source
(src/userdefaults3.py lines 218 to 227) the body of sync is guarded by the
writeback flag, although the class docstring of FileUserDefaults says the
flag does not affect sync. This theorem evaluates the embedded code at the
failing input: a store constructed with writeback false whose document was
then mutated. The first conjunct shows the mutation reached the in-memory
document; the second shows the explicit sync nevertheless left the on-disk
file unchanged, where the claim requires it to be overwritten. -/
theorem c1_sync_is_gated_on_writeback :
    (FileUserDefaults.setitem
        { writeback := false, path := "~/Library/Preferences/com.example.app.plist",
          data := [] }
        "key" (Plist.str "value")).data = [("key", Plist.str "value")] ∧
    FileUserDefaults.sync
      (FileUserDefaults.setitem
        { writeback := false, path := "~/Library/Preferences/com.example.app.plist",
          data := [] }
        "key" (Plist.str "value"))
      [("~/Library/Preferences/com.example.app.plist", FileContent.plist [])] =
    [("~/Library/Preferences/com.example.app.plist", FileContent.plist [])] :=
  ⟨rfl, rfl⟩

/-- C2: for the file-backed store, scope exit (normal or exceptional, the
exception information being ignored by the exit hook) rewrites the on-disk
file with all in-scope mutations exactly when writeback was true at
construction: with writeback false the file system is returned unchanged,
with writeback true loading the resolved path from the resulting file system
yields precisely the mutated in-memory document. -/
theorem c2_exit_persists_iff_writeback (ud : FileUserDefaults) (ops : List Op)
    (exc : Option PyErr) (fs : FS) :
    (ud.writeback = false →
      FileUserDefaults.exitScope (ud.applyOps ops) exc fs = fs) ∧
    (ud.writeback = true →
      FS.load (FileUserDefaults.exitScope (ud.applyOps ops) exc fs) ud.path =
        Except.ok (ud.applyOps ops).data) := by
  constructor
  · intro h
    simp [FileUserDefaults.exitScope, FileUserDefaults.sync,
      FileUserDefaults.applyOps_writeback, h]
  · intro h
    simp [FileUserDefaults.exitScope, FileUserDefaults.sync,
      FileUserDefaults.applyOps_writeback, FileUserDefaults.applyOps_path, h,
      FS.load, FS.stat_write_self]

/-- Witness for C2 at concrete inputs: one scope with writeback false whose
mutation does not reach the disk, and one with writeback true whose mutation
is loadable from the disk afterwards. -/
theorem c2_exit_persists_iff_writeback_witness :
    FileUserDefaults.exitScope
      (FileUserDefaults.applyOps { writeback := false, path := "p", data := [] }
        [Op.set "k" (Plist.int 1)])
      none [("p", FileContent.plist [])] = [("p", FileContent.plist [])] ∧
    FS.load
      (FileUserDefaults.exitScope
        (FileUserDefaults.applyOps { writeback := true, path := "p", data := [] }
          [Op.set "k" (Plist.int 1)])
        none [("p", FileContent.plist [])]) "p" =
      Except.ok [("k", Plist.int 1)] :=
  ⟨(c2_exit_persists_iff_writeback ⟨false, "p", []⟩ [Op.set "k" (Plist.int 1)] none
      [("p", FileContent.plist [])]).1 rfl,
   (c2_exit_persists_iff_writeback ⟨true, "p", []⟩ [Op.set "k" (Plist.int 1)] none
      [("p", FileContent.plist [])]).2 rfl⟩

/-- C3: when the domain identifier is empty or absent (each identity source
yields nothing usable), the spec-modelled resolver returns none, the Path
Resolver yields none, and constructing the file-backed store fails with
NotImplementedError, the unsupported-operation error, with the file system
untouched, so before any I/O. -/
theorem c3_no_identity_no_file_backend (m e : Option String)
    (hm : ∀ i, m = some i → i = "") (he : ∀ i, e = some i → i = "") :
    get_bundle_id m e = none ∧
    get_userdefaults_path (get_bundle_id m e) = none ∧
    ∀ (wb : Bool) (fs : FS),
      FileUserDefaults.init wb "" (get_bundle_id m e) fs =
        (Except.error
          (PyErr.notImplementedError "platform not supported: bundle ID is invalid"), fs) := by
  have hb : get_bundle_id m e = none := by
    cases m with
    | none =>
        cases e with
        | none => rfl
        | some j => have hj := he j rfl; simp [get_bundle_id, hj]
    | some i =>
        have hi := hm i rfl
        cases e with
        | none => simp [get_bundle_id, hi]
        | some j => have hj := he j rfl; simp [get_bundle_id, hi, hj]
  refine ⟨hb, ?_, ?_⟩
  · rw [hb]; rfl
  · intro wb fs; rw [hb]; rfl

/-- Witness for C3 at a concrete input: the manifest yields the empty
identifier and the environment yields nothing. -/
theorem c3_no_identity_no_file_backend_witness :
    get_bundle_id (some "") none = none ∧
    get_userdefaults_path (get_bundle_id (some "") none) = none ∧
    FileUserDefaults.init false "" (get_bundle_id (some "") none) [] =
      (Except.error
        (PyErr.notImplementedError "platform not supported: bundle ID is invalid"), []) := by
  obtain ⟨h₁, h₂, h₃⟩ := c3_no_identity_no_file_backend (some "") none
    (fun i h => (Option.some.inj h).symm) (fun i h => Option.noConfusion h)
  exact ⟨h₁, h₂, h₃ false []⟩

/-- C4: for every non-none domain identifier, the Path Resolver returns the
path USERHOME/Library/folder/identifier.plist where the folder is
SyncedPreferences exactly when the identifier equals AsheKube.app.a-Shell and
Preferences for every other identifier. -/
theorem c4_path_resolution (bid : String) :
    ∃ folder : String,
      get_userdefaults_path (some bid) =
        some (USERHOME ++ "/Library/" ++ folder ++ "/" ++ bid ++ ".plist") ∧
      (folder = "SyncedPreferences" ↔ bid = "AsheKube.app.a-Shell") ∧
      (¬ bid = "AsheKube.app.a-Shell" → folder = "Preferences") := by
  by_cases h : bid = "AsheKube.app.a-Shell"
  · exact ⟨"SyncedPreferences", by simp [get_userdefaults_path, h], by simp [h], by simp [h]⟩
  · refine ⟨"Preferences", by simp [get_userdefaults_path, h], ?_, fun _ => rfl⟩
    constructor
    · intro hf; exact absurd hf (by decide)
    · intro hb; exact absurd hb h

/-- C5: constructing the file-backed store with any non-empty suitename
fails immediately with NotImplementedError, the unsupported-operation error.
The statement holds for every bundle identifier, including ones under which
path resolution would succeed, and for every file system, which is returned
untouched: the failure precedes path resolution and any I/O, and the error
result carries no store, so nothing is partially constructed. -/
theorem c5_nonempty_suitename_fails (wb : Bool) (suitename : String)
    (bundle_id : Option String) (fs : FS) (h : ¬ suitename = "") :
    FileUserDefaults.init wb suitename bundle_id fs =
      (Except.error
        (PyErr.notImplementedError "suitenams not supported by FileUserDefaults"), fs) := by
  simp [FileUserDefaults.init, h]

/-- Witness for C5 at a concrete input: a suite name on a platform whose
settings file would otherwise load. -/
theorem c5_nonempty_suitename_fails_witness :
    FileUserDefaults.init false "suite" (some "com.example.app")
      [("~/Library/Preferences/com.example.app.plist", FileContent.plist [])] =
      (Except.error
        (PyErr.notImplementedError "suitenams not supported by FileUserDefaults"),
       [("~/Library/Preferences/com.example.app.plist", FileContent.plist [])]) :=
  c5_nonempty_suitename_fails false "suite" (some "com.example.app")
    [("~/Library/Preferences/com.example.app.plist", FileContent.plist [])] (by decide)

/-- C6: when the settings file at the resolved path is missing or fails to
decode, construction of the file-backed store fails with UserDefaultsError,
the domain-specific load error, whose message wraps the message of the
underlying exception (FileNotFoundError naming the path, or the plistlib
invalid-file exception). The file system comes back unchanged, so the
missing file is never created, and the error result carries no store, so no
empty-document fallback occurs. -/
theorem c6_load_failure_wrapped (wb : Bool) (bid : String) (path : String) (fs : FS)
    (hpath : get_userdefaults_path (some bid) = some path)
    (hmiss : FS.stat fs path = none ∨ FS.stat fs path = some FileContent.undecodable) :
    ∃ e : PyErr,
      (e = PyErr.fileNotFoundError path ∨ e = PyErr.invalidFileException) ∧
      FileUserDefaults.init wb "" (some bid) fs =
        (Except.error
          (PyErr.userDefaultsError
            ("could not parse UserDefaults plist: " ++ e.message)), fs) := by
  cases hmiss with
  | inl hm =>
      exact ⟨PyErr.fileNotFoundError path, Or.inl rfl,
        by simp [FileUserDefaults.init, hpath, FS.load, hm]⟩
  | inr hm =>
      exact ⟨PyErr.invalidFileException, Or.inr rfl,
        by simp [FileUserDefaults.init, hpath, FS.load, hm]⟩

/-- Witness for C6 at the concrete input of the spec scenario: identifier
com.example.app with no file at the resolved Preferences path. -/
theorem c6_load_failure_wrapped_witness :
    ∃ e : PyErr,
      (e = PyErr.fileNotFoundError "~/Library/Preferences/com.example.app.plist" ∨
        e = PyErr.invalidFileException) ∧
      FileUserDefaults.init false "" (some "com.example.app") [] =
        (Except.error
          (PyErr.userDefaultsError
            ("could not parse UserDefaults plist: " ++ e.message)), []) :=
  c6_load_failure_wrapped false "com.example.app"
    "~/Library/Preferences/com.example.app.plist" [] (by rfl) (Or.inl (by rfl))

/-- C7: the claim states that assigning the whole document on the
bridge-backed store fails with a read-only-violation error of the
domain-specific type UserDefaultsError. In the source (src/userdefaults3.py
lines 281 to 285) the property setter is declared with self as its only
parameter, so the two-argument call made by the property protocol fails its
arity check: the assignment does fail, and produces no state so it has no
side effect, but the raised exception is TypeError, never the
UserDefaultsError the docstring promises. Evaluated at the failing input of
assigning an empty document on the default domain. -/
theorem c7_data_setter_raises_type_error :
    ObjCUserDefaults.setData ⟨[]⟩ (Plist.dict []) =
      Except.error
        (PyErr.typeError "data() takes 1 positional argument but 2 were given") ∧
    ∀ msg : String,
      ObjCUserDefaults.setData ⟨[]⟩ (Plist.dict []) ≠
        Except.error (PyErr.userDefaultsError msg) := by
  refine ⟨rfl, fun msg h => ?_⟩
  simp [ObjCUserDefaults.setData] at h

/-- C8 counterexample: the claim requires that on both backends a delete
followed by a get on the same key fails and the containment check answers
false. On the bridge backend, with the default domain holding exactly one
binding of the key k, deleting k and then getting k returns the nil result
(the embedded getitem is total, there is no exception to raise), and the
inherited containment mixin, having received a value rather than a KeyError,
answers true where the claim requires false. -/
theorem c8_counterexample :
    ObjCUserDefaults.getitem
      (ObjCUserDefaults.delitem ⟨[(ObjCObject.str "k", ObjCObject.str "v")]⟩ "k") "k" =
      none ∧
    ObjCUserDefaults.contains
      (ObjCUserDefaults.delitem ⟨[(ObjCObject.str "k", ObjCObject.str "v")]⟩ "k") "k" =
      Except.ok true :=
  ⟨rfl, rfl⟩

/-- C8 amended: delete followed by get on the same key fails only on the
file backend: there a successful delete makes a subsequent get raise
KeyError and the containment check answer false. On the bridge backend a
delete followed by a get on the same key returns the nil result without
raising, and the inherited containment mixin consequently answers true, not
false. -/
theorem c8_delete_then_get :
    (∀ (ud ud₁ : FileUserDefaults) (k : String),
      FileUserDefaults.delitem ud k = Except.ok ud₁ →
      FileUserDefaults.getitem ud₁ k = Except.error (PyErr.keyError k) ∧
      FileUserDefaults.contains ud₁ k = Except.ok false) ∧
    (∀ (st : NSUserDefaultsState) (k : String),
      ObjCUserDefaults.getitem (ObjCUserDefaults.delitem st k) k = none ∧
      ObjCUserDefaults.contains (ObjCUserDefaults.delitem st k) k = Except.ok true) := by
  constructor
  · intro ud ud₁ k h
    unfold FileUserDefaults.delitem at h
    cases hd : Dict.del ud.data k with
    | none => rw [hd] at h; exact absurd h (by simp)
    | some d =>
        rw [hd] at h
        obtain rfl : ud₁ = { ud with data := d } := by
          injection h with h₁; exact h₁.symm
        unfold Dict.del at hd
        cases hg : Dict.get? ud.data k with
        | none => rw [hg] at hd; exact absurd hd (by simp)
        | some v =>
            rw [hg] at hd
            obtain rfl : d = ud.data.filter (fun p => ¬ (p.1 = k)) := by
              injection hd with h₂; exact h₂.symm
            have hfil := Dict.get?_filter_self ud.data k
            simp only [decide_not] at hfil
            constructor
            · simp [FileUserDefaults.getitem, hfil]
            · simp [FileUserDefaults.contains, FileUserDefaults.getitem, hfil,
                mappingContains]
  · intro st k
    constructor
    · simpa [ObjCUserDefaults.getitem, ObjCUserDefaults.delitem,
        removeObjectForKey, objectForKey]
        using alLookup_filter_self st.store (ObjCObject.str k)
    · rfl

/-- Witness for C8 at concrete inputs: a file store holding one binding of
the key before the delete, and a bridge domain holding one binding of its
key. -/
theorem c8_delete_then_get_witness :
    (FileUserDefaults.getitem { writeback := false, path := "p", data := [] } "k" =
        Except.error (PyErr.keyError "k") ∧
      FileUserDefaults.contains { writeback := false, path := "p", data := [] } "k" =
        Except.ok false) ∧
    (ObjCUserDefaults.getitem
        (ObjCUserDefaults.delitem ⟨[(ObjCObject.str "a", ObjCObject.str "b")]⟩ "a") "a" =
        none ∧
      ObjCUserDefaults.contains
        (ObjCUserDefaults.delitem ⟨[(ObjCObject.str "a", ObjCObject.str "b")]⟩ "a") "a" =
        Except.ok true) :=
  ⟨c8_delete_then_get.1
      { writeback := false, path := "p", data := [("k", Plist.int 0)] }
      { writeback := false, path := "p", data := [] } "k" (by rfl),
   c8_delete_then_get.2 ⟨[(ObjCObject.str "a", ObjCObject.str "b")]⟩ "a"⟩

/-- C9: the claim states that set followed by get on the same key returns
the value just set on both backends. On the file backend this holds for
every key and value, as the last conjunct shows. On the bridge backend the
source (src/userdefaults3.py line 272) passes its arguments to setObject
forKey in the wrong order: the key string is stored as the object, under the
converted value as the key. Evaluated at the failing input, the key named
key with the integer value 42 on the empty default domain: the subsequent
get returns nil instead of the value, and the binding actually created maps
the converted value 42 to the key string. -/
theorem c9_bridge_set_get_swapped :
    ObjCUserDefaults.getitem
      (ObjCUserDefaults.setitem ⟨[]⟩ "key" (Plist.int 42)) "key" = none ∧
    objectForKey (ObjCUserDefaults.setitem ⟨[]⟩ "key" (Plist.int 42))
      (at_conv (Plist.int 42)) = some (ObjCObject.str "key") ∧
    (∀ (ud : FileUserDefaults) (k : String) (v : Plist),
      FileUserDefaults.getitem (FileUserDefaults.setitem ud k v) k = Except.ok v) := by
  refine ⟨rfl, ?_, fun ud k v => ?_⟩
  · have hbeq : ObjCObject.beq (at_conv (Plist.int 42)) (at_conv (Plist.int 42)) = true := by
      simp [at_conv, ObjCObject.beq, Plist.beq]
    simp [objectForKey, ObjCUserDefaults.setitem, setObject_forKey, alInsert,
      alLookup, hbeq]
  · simp [FileUserDefaults.getitem, FileUserDefaults.setitem, Dict.get?_set_self]

/-- C10: for a key absent from the document the two backends diverge at the
public mapping interface: the file-backed getitem raises KeyError for that
key, while the bridge-backed getitem returns the nil result without raising
(it is total, with no exception channel at all). -/
theorem c10_missing_key_divergence (ud : FileUserDefaults)
    (st : NSUserDefaultsState) (k : String)
    (hf : Dict.get? ud.data k = none)
    (hb : ∀ p ∈ st.store, ObjCObject.beq p.1 (ObjCObject.str k) = false) :
    FileUserDefaults.getitem ud k = Except.error (PyErr.keyError k) ∧
    ObjCUserDefaults.getitem st k = none := by
  constructor
  · simp [FileUserDefaults.getitem, hf]
  · exact alLookup_absent st.store (ObjCObject.str k) hb

/-- Witness for C10 at concrete inputs: both stores hold one binding of
another key and the looked-up key is absent from both. -/
theorem c10_missing_key_divergence_witness :
    FileUserDefaults.getitem
      { writeback := false, path := "p", data := [("other", Plist.int 0)] } "missing" =
      Except.error (PyErr.keyError "missing") ∧
    ObjCUserDefaults.getitem ⟨[(ObjCObject.str "other", ObjCObject.str "x")]⟩ "missing" =
      none :=
  c10_missing_key_divergence
    { writeback := false, path := "p", data := [("other", Plist.int 0)] }
    ⟨[(ObjCObject.str "other", ObjCObject.str "x")]⟩ "missing" (by rfl)
    (by
      intro p hp
      simp only [List.mem_singleton] at hp
      subst hp
      rfl)

end UserDefaults3
